import Mathlib

set_option maxRecDepth 4000

/-
Verification of the command-understanding pipeline of jarvis (ai_core.py).

The pipeline is pure string processing: a rule-based intent classifier,
an action mapper and a parameter extractor, all driven by ordered regex
tables, composed by a three-tier orchestrator (analyze_command) with a
generative-service fallback whose reply parsing is modelled from the
JSON-span extraction code.

Python regular expressions are embedded as an explicit abstract syntax
(RE) together with a backtracking matcher that mirrors the semantics of
re.search on the pattern subset the tables use: literal characters,
character classes, alternation (leftmost alternative preferred), greedy
and lazy star, optional groups, capture groups.  Strings are lists of
characters; Python str.lower, str.strip, str.split and "in" are embedded
for the ASCII texts the tables target.  Machine floats 0.8, 0.3, 0.9 used
only as provenance tags are embedded as rationals.
-/

/-- Python whitespace test (ASCII part of str.isspace, the set the \s
class and str.strip use on the ASCII commands modelled here). -/
def isPySpace (c : Char) : Bool :=
  c == ' ' || c == '\t' || c == '\n' || c == '\r' || c == Char.ofNat 11 || c == Char.ofNat 12

/-- str.lower on one character (ASCII, as Char.toLower). -/
def pyLowerChar (c : Char) : Char := Char.toLower c

/-- str.lower. -/
def pyLowerL (l : List Char) : List Char := l.map pyLowerChar

/-- str.strip: drop whitespace from both ends. -/
def pyStrip (l : List Char) : List Char :=
  ((l.dropWhile isPySpace).reverse.dropWhile isPySpace).reverse

/-- Python substring containment: sub in l. -/
def containsL : List Char → List Char → Bool
  | [], sub => sub.isEmpty
  | c :: t, sub => sub.isPrefixOf (c :: t) || containsL t sub

/-- str.split with no argument: whitespace-separated words, empties dropped. -/
def pyWords (l : List Char) : List (List Char) :=
  let r := l.foldr
    (fun c (acc : List Char × List (List Char)) =>
      if isPySpace c then ([], if acc.1.isEmpty then acc.2 else acc.1 :: acc.2)
      else (c :: acc.1, acc.2)) ([], [])
  if r.1.isEmpty then r.2 else r.1 :: r.2

/-- " ".join. -/
def joinSpace : List (List Char) → List Char
  | [] => []
  | [w] => w
  | w :: t => w ++ ' ' :: joinSpace t

/-- The slice l[a:b]. -/
def sliceL (l : List Char) (a b : Nat) : List Char := (l.drop a).take (b - a)

/-- int() on a nonempty all-digit capture. -/
def digitsToInt (l : List Char) : Int :=
  Int.ofNat (l.foldl (fun a c => 10 * a + (c.toNat - 48)) 0)

/-- Abstract syntax of the regex subset the pattern tables use. -/
inductive RE where
  | eps : RE
  | cls : (Char → Bool) → RE
  | cat : RE → RE → RE
  | alt : RE → RE → RE
  | opt : Bool → RE → RE
  | star : Bool → RE → RE
  | group : Nat → RE → RE

/-- Captures: group index to (start, stop) span. -/
def Caps := List (Nat × Nat × Nat)

/-- Record a capture span, overwriting an earlier span of the same group. -/
def capSet (n a b : Nat) : Caps → Caps
  | [] => [(n, a, b)]
  | e :: t => if e.1 = n then (n, a, b) :: t else e :: capSet n a b t

/-- Continuations of the matcher. -/
def MK := Nat → Caps → Option (Nat × Caps)

/-- One layer of the backtracking matcher: Python re semantics on the
embedded subset, in continuation style.  Alternation and option try the
left or the preferred branch first; the star layer defers re-entry to
the next fuel layer (deep), and an iteration must consume at least one
character, which Python guarantees here since no starred body of the
tables is nullable. -/
def mrunAux (deep : RE → List Char → Nat → Caps → MK → Option (Nat × Caps)) :
    RE → List Char → Nat → Caps → MK → Option (Nat × Caps)
  | .eps, _, i, caps, k => k i caps
  | .cls p, s, i, caps, k =>
    match s.get? i with
    | some c => if p c then k (i + 1) caps else none
    | none => none
  | .cat a b, s, i, caps, k => mrunAux deep a s i caps (fun j c => mrunAux deep b s j c k)
  | .alt a b, s, i, caps, k =>
    (mrunAux deep a s i caps k).orElse (fun _ => mrunAux deep b s i caps k)
  | .opt g a, s, i, caps, k =>
    if g then (mrunAux deep a s i caps k).orElse (fun _ => k i caps)
    else (k i caps).orElse (fun _ => mrunAux deep a s i caps k)
  | .star g a, s, i, caps, k =>
    if g then
      (mrunAux deep a s i caps
        (fun j c => if i < j then deep (.star g a) s j c k else none)).orElse (fun _ => k i caps)
    else
      (k i caps).orElse (fun _ => mrunAux deep a s i caps
        (fun j c => if i < j then deep (.star g a) s j c k else none))
  | .group n a, s, i, caps, k => mrunAux deep a s i caps (fun j c => k j (capSet n i j c))

/-- Fuelled matcher: one fuel layer per star iteration.  Every iteration
consumes at least one character, so fuel length+1 never runs out on a
match attempt (the zero layer is unreachable from reSearch). -/
def mrunF : Nat → RE → List Char → Nat → Caps → MK → Option (Nat × Caps)
  | 0 => fun _ _ _ _ _ => none
  | f + 1 => mrunAux (mrunF f)

/-- re.search scan: try a match anchored at i, then at i+1, ... -/
def searchFrom (r : RE) (s : List Char) : Nat → Nat → Option (Nat × Nat × Caps)
  | _, 0 => none
  | i, f + 1 =>
    match mrunF (s.length + 1) r s i [] (fun j c => some (j, c)) with
    | some (j, c) => some (i, j, c)
    | none => searchFrom r s (i + 1) f

/-- re.search: leftmost match position wins; yields (start, stop, captures). -/
def reSearch (r : RE) (s : List Char) : Option (Nat × Nat × Caps) :=
  searchFrom r s 0 (s.length + 1)

/-- match.group(n) as a character list (all groups the tables read are
always bound when the whole pattern matched). -/
def matchedGroup (s : List Char) (caps : Caps) (n : Nat) : List Char :=
  match caps.lookup n with
  | some p => sliceL s p.1 p.2
  | none => []

/-- re.sub(pattern, "", text) scan: at each position drop the anchored
match if there is one (the substituted patterns never match empty). -/
def subGo (r : RE) (s : List Char) : Nat → Nat → List Char
  | _, 0 => []
  | i, f + 1 =>
    if i < s.length then
      match mrunF (s.length + 1) r s i [] (fun j c => some (j, c)) with
      | some (j, _) => if i < j then subGo r s j f else s.getD i ' ' :: subGo r s (i + 1) f
      | none => s.getD i ' ' :: subGo r s (i + 1) f
    else []

/-- re.sub(pattern, "", text). -/
def subAll (r : RE) (s : List Char) : List Char := subGo r s 0 (s.length + 1)

/-- A literal word. -/
def lit (w : String) : RE :=
  w.toList.foldr (fun c r => RE.cat (RE.cls (fun x => x == c)) r) RE.eps

/-- Alternation list, leftmost preferred. -/
def alts : List RE → RE
  | [] => RE.cls (fun _ => false)
  | [r] => r
  | r :: t => RE.alt r (alts t)

/-- Concatenation list. -/
def rcat (l : List RE) : RE := l.foldr RE.cat RE.eps

/-- r+ (greedy). -/
def plus (r : RE) : RE := RE.cat r (RE.star true r)

/-- The dot: any character but newline. -/
def dotC : RE := RE.cls (fun c => !(c == '\n'))

/-- .* (greedy). -/
def dstar : RE := RE.star true dotC

/-- .*? (lazy). -/
def dlazy : RE := RE.star false dotC

/-- Any character at all (the dot under re.DOTALL). -/
def anyC : RE := RE.cls (fun _ => true)

/-- \s+ -/
def wsPlus : RE := plus (RE.cls isPySpace)

/-- [a-zA-Z\s]+ -/
def azsPlus : RE :=
  plus (RE.cls (fun c => ('a' ≤ c && c ≤ 'z') || ('A' ≤ c && c ≤ 'Z') || isPySpace c))

/-- \d+ -/
def digPlus : RE := plus (RE.cls (fun c => '0' ≤ c && c ≤ '9'))

/-- ["\']? -/
def quoteOpt : RE := RE.opt true (RE.cls (fun c => c == Char.ofNat 34 || c == Char.ofNat 39))

/-- ([^"\']+) as group n. -/
def notQuoteGrp (n : Nat) : RE :=
  RE.group n (plus (RE.cls (fun c => !(c == Char.ofNat 34 || c == Char.ofNat 39))))

/-- ([^.!?]+) as group n. -/
def notPunctGrp (n : Nat) : RE :=
  RE.group n (plus (RE.cls (fun c => !(c == '.' || c == '!' || c == '?'))))

/-- (?:file|document|doc|txt|pdf) -/
def docAlt : RE := alts [lit "file", lit "document", lit "doc", lit "txt", lit "pdf"]

/-- (?:application|app|program) -/
def appAlt : RE := alts [lit "application", lit "app", lit "program"]

/-- (?:file|folder) -/
def ffAlt : RE := alts [lit "file", lit "folder"]

/-- IntentClassifier.INTENT_PATTERNS, in dict-definition order. -/
def INTENT_PATTERNS : List (String × List RE) := [
  ("file_creation", [
    rcat [lit "create", dstar, docAlt],
    rcat [lit "make", dstar, docAlt],
    rcat [lit "new", dstar, docAlt],
    rcat [lit "generate", dstar, docAlt]]),
  ("file_management", [
    rcat [lit "list", dstar, lit "file", RE.opt true (lit "s")],
    rcat [lit "show", dstar, lit "file", RE.opt true (lit "s")],
    rcat [lit "open", dstar, alts [lit "file", lit "folder", lit "directory"]],
    rcat [lit "delete", dstar, ffAlt],
    rcat [lit "copy", dstar, ffAlt],
    rcat [lit "move", dstar, ffAlt],
    rcat [lit "read", dstar, lit "file"],
    rcat [lit "find", dstar, lit "file"]]),
  ("system_control", [
    rcat [lit "open", dstar, appAlt],
    rcat [lit "start", dstar, appAlt],
    rcat [lit "launch", dstar, appAlt],
    rcat [lit "run", dstar, appAlt],
    rcat [lit "close", dstar, appAlt],
    rcat [lit "kill", dstar, lit "process"],
    rcat [lit "restart", dstar, alts [lit "computer", lit "system"]],
    rcat [lit "shutdown", dstar, alts [lit "computer", lit "system"]],
    rcat [lit "take", dstar, lit "screenshot"],
    rcat [lit "get", dstar, alts [lit "processes", lit "services"]],
    rcat [lit "system", dstar, alts [lit "info", lit "status"]]]),
  ("web_browse", [
    rcat [lit "search", dstar, alts [lit "for", lit "about"]],
    rcat [lit "google", dstar],
    rcat [lit "browse", dstar],
    rcat [lit "visit", dstar, alts [lit "website", lit "site"]],
    rcat [lit "open", dstar, alts [lit "website", lit "site", lit "url"]],
    rcat [lit "look", dstar, lit "up"]]),
  ("powershell_task", [
    rcat [lit "powershell", dstar],
    rcat [lit "run", dstar, alts [lit "command", lit "script"]],
    rcat [lit "execute", dstar, alts [lit "command", lit "script"]],
    rcat [lit "cmd", dstar],
    rcat [lit "terminal", dstar]]),
  ("weather_inquiry", [
    rcat [lit "weather", dstar, alts [lit "in", lit "for", lit "at"]],
    rcat [lit "temperature", dstar, alts [lit "in", lit "for", lit "at"]],
    rcat [lit "forecast", dstar, alts [lit "in", lit "for", lit "at"]],
    rcat [lit "climate", dstar, alts [lit "in", lit "for", lit "at"]]]),
  ("knowledge_inquiry", [
    rcat [lit "what", dstar, lit "is"],
    rcat [lit "tell", dstar, lit "me", dstar, lit "about"],
    rcat [lit "explain", dstar],
    rcat [lit "define", dstar],
    rcat [lit "describe", dstar],
    rcat [lit "how", dstar, alts [lit "does", lit "do", lit "to"]],
    rcat [lit "why", dstar, alts [lit "does", lit "do", lit "is"]]]),
  ("memory_query", [
    rcat [lit "remember", dstar],
    rcat [lit "recall", dstar],
    rcat [lit "what", dstar, alts [lit "do you know", lit "did we discuss"]],
    rcat [lit "forget", dstar],
    rcat [lit "clear", dstar, lit "memory"]]),
  ("clipboard_management", [
    rcat [lit "copy", dstar, alts [lit "to clipboard", lit "clipboard"]],
    rcat [lit "paste", dstar, alts [lit "from clipboard", lit "clipboard"]],
    rcat [lit "read", dstar, lit "clipboard"],
    rcat [lit "clipboard", dstar]]),
  ("windows_automation", [
    rcat [lit "click", dstar, alts [lit "at", lit "on"]],
    rcat [lit "press", dstar, alts [lit "key", lit "keys"]],
    rcat [lit "type", dstar],
    rcat [lit "send", dstar, lit "keys"],
    rcat [lit "window", dstar, lit "list"],
    rcat [lit "minimize", dstar, lit "window"],
    rcat [lit "maximize", dstar, lit "window"]])]

/-- ActionMapper.ACTION_MAPPING, per intent in dict-definition order. -/
def ACTION_MAPPING : List (String × List (RE × String)) := [
  ("file_creation", [
    (alts [lit "word", lit "doc", lit "docx"], "create_word"),
    (alts [lit "excel", lit "xlsx", lit "spreadsheet"], "create_excel"),
    (lit "pdf", "create_pdf"),
    (alts [lit "text", lit "txt"], "create_text"),
    (alts [lit "python", lit "py", lit "code"], "create_code"),
    (lit "json", "create_json")]),
  ("file_management", [
    (rcat [lit "list", dstar, lit "file", RE.opt true (lit "s")], "list_files"),
    (rcat [lit "open", dstar, ffAlt], "open_file"),
    (rcat [lit "delete", dstar, ffAlt], "delete_file"),
    (rcat [lit "copy", dstar, ffAlt], "copy_file"),
    (rcat [lit "move", dstar, ffAlt], "move_file"),
    (rcat [lit "read", dstar, lit "file"], "read_file"),
    (rcat [lit "find", dstar, lit "file"], "find_file")]),
  ("system_control", [
    (rcat [lit "open", dstar, alts [lit "application", lit "app"]], "open_application"),
    (rcat [lit "close", dstar, alts [lit "application", lit "app"]], "close_application"),
    (rcat [lit "take", dstar, lit "screenshot"], "take_screenshot"),
    (rcat [lit "get", dstar, lit "processes"], "get_processes"),
    (rcat [lit "get", dstar, lit "services"], "get_services"),
    (rcat [lit "system", dstar, lit "info"], "get_system_info"),
    (lit "restart", "restart_system"),
    (lit "shutdown", "shutdown_system")]),
  ("web_browse", [
    (rcat [lit "search", dstar, lit "for"], "web_search"),
    (lit "google", "web_search"),
    (rcat [lit "visit", dstar, alts [lit "website", lit "site"]], "visit_website"),
    (rcat [lit "open", dstar, alts [lit "website", lit "site", lit "url"]], "visit_website")]),
  ("powershell_task", [
    (rcat [lit "run", dstar, alts [lit "command", lit "script"]], "run_powershell"),
    (rcat [lit "execute", dstar, alts [lit "command", lit "script"]], "run_powershell"),
    (lit "powershell", "run_powershell")]),
  ("weather_inquiry", [
    (lit "weather", "get_weather"),
    (lit "temperature", "get_temperature"),
    (lit "forecast", "get_forecast")]),
  ("memory_query", [
    (lit "remember", "store_memory"),
    (lit "recall", "recall_memory"),
    (rcat [lit "what", dstar, lit "know"], "recall_facts"),
    (rcat [lit "what", dstar, lit "discuss"], "recall_conversation"),
    (lit "forget", "clear_memory")])]

/-- \s+([a-zA-Z\s]+) with the capture as group 1: the shared tail of the
generic application_name pattern and of the open_application refinement. -/
def appTailRE : RE := RE.cat wsPlus (RE.cat (RE.group 1 azsPlus) RE.eps)

/-- (?:open|start|launch)\s+([a-zA-Z\s]+) -/
def applicationNameRE : RE := RE.cat (alts [lit "open", lit "start", lit "launch"]) appTailRE

/-- open\s+([a-zA-Z\s]+), the open_application refinement. -/
def appLooseRE : RE := RE.cat (lit "open") appTailRE

/-- (?:weather|temperature|forecast)\s+(?:in|for|at)\s+([a-zA-Z\s]+) -/
def cityNameRE : RE :=
  rcat [alts [lit "weather", lit "temperature", lit "forecast"], wsPlus,
    alts [lit "in", lit "for", lit "at"], wsPlus, RE.group 1 azsPlus]

/-- (?:weather|temperature|forecast).*?(?:in|for|at|of)\s+([a-zA-Z\s]+),
the weather_inquiry refinement. -/
def cityLooseRE : RE :=
  rcat [alts [lit "weather", lit "temperature", lit "forecast"], dlazy,
    alts [lit "in", lit "for", lit "at", lit "of"], wsPlus, RE.group 1 azsPlus]

/-- (?:click|at)\s+(?:coordinates\s+)?(?:[\(\[])?(\d+)[\s,]+(\d+)(?:[\)\]])? -/
def coordinatesRE : RE :=
  rcat [alts [lit "click", lit "at"], wsPlus,
    RE.opt true (rcat [lit "coordinates", wsPlus]),
    RE.opt true (RE.cls (fun c => c == '(' || c == '[')),
    RE.group 1 digPlus,
    plus (RE.cls (fun c => isPySpace c || c == ',')),
    RE.group 2 digPlus,
    RE.opt true (RE.cls (fun c => c == ')' || c == ']'))]

/-- ParameterExtractor.PARAMETER_PATTERNS, in dict-definition order. -/
def PARAMETER_PATTERNS : List (String × RE) := [
  ("file_path", rcat [alts [lit "file", lit "path"], wsPlus, quoteOpt, notQuoteGrp 1, quoteOpt]),
  ("application_name", applicationNameRE),
  ("search_query", rcat [alts [lit "search", lit "google"], wsPlus,
    RE.opt true (rcat [lit "for", wsPlus]), quoteOpt, notQuoteGrp 1, quoteOpt]),
  ("city_name", cityNameRE),
  ("topic", rcat [alts [lit "about", lit "explain", lit "tell me about"], wsPlus, notPunctGrp 1]),
  ("content", rcat [alts [lit "create", lit "make", lit "write"], wsPlus, dlazy,
    alts [lit "about", lit "with", lit "containing"], wsPlus, notPunctGrp 1]),
  ("coordinates", coordinatesRE),
  ("keys", rcat [alts [lit "press", lit "send", lit "type"], wsPlus,
    RE.opt true (rcat [lit "key", RE.opt true (lit "s"), wsPlus]), quoteOpt, notQuoteGrp 1, quoteOpt]),
  ("directory", rcat [alts [lit "in", lit "from", lit "at"], wsPlus,
    alts [lit "folder", lit "directory"], wsPlus, quoteOpt, notQuoteGrp 1, quoteOpt])]

/-- First re.sub pattern of _extract_topic_from_creation_command:
(?:create|make|new|generate|write|file|document|about|on|for) -/
def topicSub1RE : RE := alts [lit "create", lit "make", lit "new", lit "generate",
  lit "write", lit "file", lit "document", lit "about", lit "on", lit "for"]

/-- Second re.sub pattern: (?:word|excel|pdf|text|txt|python|code|json) -/
def topicSub2RE : RE := alts [lit "word", lit "excel", lit "pdf", lit "text",
  lit "txt", lit "python", lit "code", lit "json"]

/-- The \x7b.*\x7d span pattern of _ai_analyze_command, compiled with
re.DOTALL, so the dot here is any character. -/
def jsonSpanRE : RE :=
  rcat [RE.cls (fun c => c == Char.ofNat 123), RE.star true anyC,
    RE.cls (fun c => c == Char.ofNat 125)]

/-- _extract_file_type keyword-to-extension table, in dict order. -/
def typeMappings : List (String × String) := [("word", "docx"), ("doc", "docx"),
  ("document", "docx"), ("excel", "xlsx"), ("spreadsheet", "xlsx"), ("pdf", "pdf"),
  ("text", "txt"), ("txt", "txt"), ("python", "py"), ("code", "py"), ("json", "json")]

/-- The classifier walk: first intent, in table order, one of whose
patterns matches anywhere in the prepared command. -/
def classifyAux : List (String × List RE) → List Char → Option String
  | [], _ => none
  | (intent, ps) :: t, cl =>
    if ps.any (fun p => (reSearch p cl).isSome) then some intent else classifyAux t cl

/-- IntentClassifier.classify_intent: lower-case, strip, walk the table. -/
def classify_intent (command : String) : Option String :=
  classifyAux INTENT_PATTERNS (pyStrip (pyLowerL command.toList))

/-- The action walk: first pattern of the table that matches wins. -/
def getActionAux : List (RE × String) → List Char → String
  | [], _ => "default_action"
  | (p, a) :: t, cl => if (reSearch p cl).isSome then a else getActionAux t cl

/-- ActionMapper.get_action: default_action when the intent has no table,
else first matching pattern of the table, else default_action. -/
def get_action (intent : String) (command : String) : String :=
  match ACTION_MAPPING.lookup intent with
  | none => "default_action"
  | some tbl => getActionAux tbl (pyLowerL command.toList)

/-- Parameter values are Python strings or ints. -/
inductive PVal where
  | str : String → PVal
  | int : Int → PVal
deriving DecidableEq

/-- Dict assignment parameters[k] = v: overwrite or append. -/
def dinsert (k : String) (v : PVal) : List (String × PVal) → List (String × PVal)
  | [] => [(k, v)]
  | e :: t => if e.1 = k then (k, v) :: t else e :: dinsert k v t

/-- One turn of the generic extraction loop: on a search hit store the
stripped group under the parameter name, except that coordinates stores
the two numeric groups as ints x and y. -/
def step (cl : List Char) (params : List (String × PVal)) (e : String × RE) :
    List (String × PVal) :=
  match reSearch e.2 cl with
  | none => params
  | some m =>
    if e.1 = "coordinates" then
      dinsert "y" (PVal.int (digitsToInt (matchedGroup cl m.2.2 2)))
        (dinsert "x" (PVal.int (digitsToInt (matchedGroup cl m.2.2 1))) params)
    else
      dinsert e.1 (PVal.str (String.mk (pyStrip (matchedGroup cl m.2.2 1)))) params

/-- ParameterExtractor._extract_file_type: first known format keyword
contained in the lower-cased command, defaulting to txt. -/
def extractFileType (cl : List Char) : String :=
  match typeMappings.find? (fun e => containsL cl e.1.toList) with
  | some e => e.2
  | none => "txt"

/-- ParameterExtractor._extract_topic_from_creation_command: delete the
stop-words, delete the format keywords, collapse whitespace, and fall
back to "general topic" when nothing is left. -/
def extractTopic (cl : List Char) : String :=
  let c2 := subAll topicSub2RE (subAll topicSub1RE cl)
  let joined := joinSpace (pyWords c2)
  if pyStrip joined = [] then "general topic" else String.mk (pyStrip joined)

/-- ParameterExtractor.extract_parameters: the generic loop over
PARAMETER_PATTERNS followed by the intent-specific refinements. -/
def extract_parameters (command intent action : String) : List (String × PVal) :=
  let cl := pyLowerL command.toList
  let ps := PARAMETER_PATTERNS.foldl (step cl) []
  if intent = "file_creation" then
    let ps2 := dinsert "file_type" (PVal.str (extractFileType cl)) ps
    if (ps2.lookup "content").isNone then
      dinsert "content_topic" (PVal.str (extractTopic cl)) ps2
    else ps2
  else if intent = "weather_inquiry" then
    if (ps.lookup "city_name").isNone then
      match reSearch cityLooseRE cl with
      | some m => dinsert "city" (PVal.str (String.mk (pyStrip (matchedGroup cl m.2.2 1)))) ps
      | none => ps
    else ps
  else if intent = "system_control" && action = "open_application" then
    if (ps.lookup "application_name").isNone then
      match reSearch appLooseRE cl with
      | some m => dinsert "application" (PVal.str (String.mk (pyStrip (matchedGroup cl m.2.2 1)))) ps
      | none => ps
    else ps
  else ps

/-- The CommandAnalysis dataclass.  Confidence, a Python float tag, is
embedded as a rational. -/
structure CommandAnalysis where
  intent : String
  action : String
  parameters : List (String × PVal)
  response : Option String
  confidence : ℚ
  requires_confirmation : Bool
deriving DecidableEq

/-- Confidence tag of the rule-based tier. -/
def ruleConf : ℚ := 8/10

/-- The fixed pool _generate_fallback_response draws from. -/
def fallbackResponses : List String := [
  "I\x27m not sure how to help with that. Could you please rephrase your request?",
  "I don\x27t understand that command. Try asking me to create a file, open an application, or search for something.",
  "Could you be more specific about what you\x27d like me to do?",
  "I\x27m having trouble understanding. Try commands like \x27create a document\x27, \x27open calculator\x27, or \x27search for AI\x27."]

/-- Tier 4: random.choice over the pool, with the random draw passed in
as an index (the command argument of _generate_fallback_response is
never read). -/
def staticFallback (choice : Nat) : CommandAnalysis :=
  { intent := "conversation", action := "chat", parameters := [],
    response := some (fallbackResponses.getD (choice % 4) ""),
    confidence := 3/10, requires_confirmation := false }

/-- Tiers 3 and 4 of analyze_command: the generative adapter is opaque
here, so its configuration and outcome are an argument: none when no
client is configured (use_ai_analysis false), some (ok a) when it
returns a, some (error e) when it raises — which analyze_command
catches, falling to the static tier. -/
def aiOrFallback (ai : Option (Except String CommandAnalysis)) (choice : Nat) :
    CommandAnalysis :=
  match ai with
  | some (Except.ok a) => a
  | some (Except.error _) => staticFallback choice
  | none => staticFallback choice

/-- AI_Core.analyze_command: empty-input check, then the rule-based
tier, then the generative tier with static fallback. -/
def analyze_command (command : String) (ai : Option (Except String CommandAnalysis))
    (choice : Nat) : CommandAnalysis :=
  if pyStrip command.toList = [] then
    { intent := "conversation", action := "chat", parameters := [],
      response := some "How can I help you?", confidence := 0,
      requires_confirmation := false }
  else
    match classify_intent command with
    | some intent =>
      if intent = "conversation" then aiOrFallback ai choice
      else
        { intent := intent, action := get_action intent command,
          parameters := extract_parameters command intent (get_action intent command),
          response := none, confidence := ruleConf, requires_confirmation := false }
    | none => aiOrFallback ai choice

/-- JSON values, as json.loads returns them (numbers as ints suffice for
the modelled replies). -/
inductive Json where
  | null : Json
  | bool : Bool → Json
  | num : Int → Json
  | str : String → Json
  | arr : List Json → Json
  | obj : List (String × Json) → Json

/-- dict.get(k, default) on a parsed JSON object. -/
def jget (fields : List (String × Json)) (k : String) (d : Json) : Json :=
  match fields.lookup k with
  | some v => v
  | none => d

/-- The analysis built by _ai_analyze_command from the parsed reply: the
four fields keep whatever dynamic values the JSON held, so they are Json
here, and the fixed confidence tag is a rational. -/
structure AiAnalysis where
  intent : Json
  action : Json
  parameters : Json
  response : Json
  confidence : ℚ

/-- The reply-parsing half of AI_Core._ai_analyze_command, from the
service reply text onward (the outbound call itself is the opaque
collaborator): search the reply for a DOTALL brace span; none raises
ValueError; otherwise json.loads parses the span (loads abstracts the
json module: none when it raises JSONDecodeError); a non-object result
makes .get raise; an object fills missing fields with the defaults and
tags confidence 0.9.  All raises surface as Except.error. -/
def ai_analyze_command (text : String) (loads : String → Option Json) :
    Except String AiAnalysis :=
  match reSearch jsonSpanRE text.toList with
  | none => Except.error "No valid JSON found in AI response"
  | some m =>
    match loads (String.mk (sliceL text.toList m.1 m.2.1)) with
    | none => Except.error "JSONDecodeError"
    | some (Json.obj fields) =>
      Except.ok
        { intent := jget fields "intent" (Json.str "conversation"),
          action := jget fields "action" (Json.str "chat"),
          parameters := jget fields "parameters" (Json.obj []),
          response := jget fields "response" Json.null,
          confidence := 9/10 }
    | some _ => Except.error "AttributeError"

/-- The key set of a parameter dict. -/
def pkeys (d : List (String × PVal)) : List String := d.map Prod.fst

/-- The keys one turn of the generic loop can add. -/
def stepKeys (e : String × RE) : List String :=
  if e.1 = "coordinates" then ["x", "y"] else [e.1]

/-- The continuation that remains after the opening brace and the
DOTALL star of the span pattern: check a closing brace, then accept. -/
def rbCont (cl : List Char) (f : Nat) : MK :=
  fun j c2 => mrunAux (mrunF f) (RE.cat (RE.cls (fun ch => ch == Char.ofNat 125)) RE.eps)
    cl j c2 (fun j2 c3 => some (j2, c3))

/-- No opening brace is followed by a closing brace anywhere later in
the text (the condition under which the reply holds no JSON span). -/
def noBracePair (cl : List Char) : Prop :=
  ∀ j, j < cl.length → ∀ i, i < j →
    ¬(cl.get? i = some (Char.ofNat 123) ∧ cl.get? j = some (Char.ofNat 125))

/-- Executable check of noBracePair. -/
def noBraceB (cl : List Char) : Bool :=
  (List.range cl.length).all fun j =>
    (List.range j).all fun i =>
      !(decide (cl.get? i = some (Char.ofNat 123)) && decide (cl.get? j = some (Char.ofNat 125)))

/-- A distinctive adapter result, used to show a tier is not consulted. -/
def probeAnalysis : CommandAnalysis :=
  { intent := "probe", action := "probe", parameters := [], response := none,
    confidence := 1, requires_confirmation := true }

/-- The utterance of the file-creation extraction example. -/
def c1cmd : String := "create a word document about artificial intelligence"

theorem classifyAux_eq_find (l : List (String × List RE)) (cl : List Char) :
    classifyAux l cl =
      (l.find? (fun e => e.2.any (fun p => (reSearch p cl).isSome))).map Prod.fst := by
  induction l with
  | nil => rfl
  | cons e t ih =>
    by_cases h : e.2.any (fun p => (reSearch p cl).isSome)
    · simp [classifyAux, h]
    · simp [classifyAux, h, ih]

theorem classifyAux_mem (l : List (String × List RE)) (cl : List Char) (i : String)
    (h : classifyAux l cl = some i) : i ∈ l.map Prod.fst := by
  rw [classifyAux_eq_find] at h
  rcases Option.map_eq_some'.mp h with ⟨e, he, hfst⟩
  exact hfst ▸ List.mem_map_of_mem Prod.fst (List.mem_of_find?_eq_some he)

theorem getActionAux_eq_find (l : List (RE × String)) (cl : List Char) :
    getActionAux l cl =
      ((l.find? (fun e => (reSearch e.1 cl).isSome)).map Prod.snd).getD "default_action" := by
  induction l with
  | nil => rfl
  | cons e t ih =>
    by_cases h : (reSearch e.1 cl).isSome
    · simp [getActionAux, h]
    · simp [getActionAux, h, ih]

theorem pyStrip_nil_all_space (l : List Char) (h : pyStrip l = []) :
    ∀ c ∈ l, isPySpace c := by
  unfold pyStrip at h
  rw [List.reverse_eq_nil_iff, List.dropWhile_eq_nil_iff] at h
  intro c hc
  rcases (List.mem_append.mp
    (((List.takeWhile_append_dropWhile isPySpace l).symm ▸ hc : c ∈ _))) with h1 | h2
  · exact List.mem_takeWhile_imp h1
  · exact h c (List.mem_reverse.mpr h2)

theorem pyLowerChar_of_space (c : Char) (h : isPySpace c) : pyLowerChar c = c := by
  unfold isPySpace at h
  simp only [Bool.or_eq_true, beq_iff_eq] at h
  rcases h with ((((rfl | rfl) | rfl) | rfl) | rfl) | rfl <;> decide

theorem pyLowerL_of_spaces (l : List Char) (h : ∀ c ∈ l, isPySpace c) :
    pyLowerL l = l := by
  induction l with
  | nil => rfl
  | cons c t ih =>
    unfold pyLowerL List.map
    rw [pyLowerChar_of_space c (h c (List.mem_cons_self c t))]
    rw [show List.map pyLowerChar t = pyLowerL t from rfl, ih (fun x hx => h x (List.mem_cons_of_mem c hx))]

theorem classify_of_strip_nil (cmd : String) (h : pyStrip cmd.toList = []) :
    classify_intent cmd = none := by
  unfold classify_intent
  rw [pyLowerL_of_spaces cmd.toList (pyStrip_nil_all_space cmd.toList h), h]
  decide

theorem rule_branch (cmd : String) (ai : Option (Except String CommandAnalysis))
    (ch : Nat) (i : String) (h1 : classify_intent cmd = some i)
    (h2 : i ≠ "conversation") :
    analyze_command cmd ai ch =
      { intent := i, action := get_action i cmd,
        parameters := extract_parameters cmd i (get_action i cmd),
        response := none, confidence := ruleConf, requires_confirmation := false } := by
  have hne : ¬(pyStrip cmd.toList = []) := by
    intro hs
    rw [classify_of_strip_nil cmd hs] at h1
    exact Option.noConfusion h1
  unfold analyze_command
  rw [if_neg hne, h1]
  simp [h2]

theorem fallthrough_branch (cmd : String) (ai : Option (Except String CommandAnalysis))
    (ch : Nat) (hne : pyStrip cmd.toList ≠ []) (hcl : classify_intent cmd = none)
    (hai : ai = none ∨ ∃ e, ai = some (Except.error e)) :
    analyze_command cmd ai ch = staticFallback ch := by
  unfold analyze_command
  rw [if_neg hne, hcl]
  rcases hai with rfl | ⟨e, rfl⟩ <;> rfl

theorem getD_mod_mem (ch : Nat) :
    fallbackResponses.getD (ch % 4) "" ∈ fallbackResponses := by
  have h : ch % 4 < 4 := Nat.mod_lt ch (by decide)
  interval_cases h : ch % 4 <;> decide

theorem mem_pkeys_dinsert (k k2 : String) (v : PVal) (d : List (String × PVal)) :
    k2 ∈ pkeys (dinsert k v d) ↔ k2 = k ∨ k2 ∈ pkeys d := by
  induction d with
  | nil => simp [dinsert, pkeys]
  | cons e t ih =>
    by_cases h : e.1 = k
    · simp [dinsert, h, pkeys]
    · simp only [dinsert, if_neg h, pkeys, List.map_cons, List.mem_cons]
      rw [show List.map Prod.fst (dinsert k v t) = pkeys (dinsert k v t) from rfl, ih]
      rw [show List.map Prod.fst t = pkeys t from rfl]
      tauto

theorem lookup_none_iff (d : List (String × PVal)) (k : String) :
    d.lookup k = none ↔ k ∉ pkeys d := by
  induction d with
  | nil => simp [pkeys]
  | cons e t ih =>
    by_cases h : k = e.1
    · simp [List.lookup, pkeys, h]
    · have hb : (k == e.1) = false := beq_eq_false_iff_ne.mpr h
      simp [List.lookup, hb, pkeys, ih, h]

theorem mem_pkeys_step (cl : List Char) (params : List (String × PVal))
    (e : String × RE) (k2 : String) :
    k2 ∈ pkeys (step cl params e) ↔
      k2 ∈ pkeys params ∨ ((reSearch e.2 cl).isSome ∧ k2 ∈ stepKeys e) := by
  unfold step stepKeys
  cases h : reSearch e.2 cl with
  | none => simp
  | some m =>
    by_cases hc : e.1 = "coordinates" <;>
      simp [hc, mem_pkeys_dinsert] <;> tauto

theorem mem_pkeys_fold (cl : List Char) (k2 : String) :
    ∀ (l : List (String × RE)) (params : List (String × PVal)),
      k2 ∈ pkeys (l.foldl (step cl) params) ↔
        k2 ∈ pkeys params ∨ ∃ e, e ∈ l ∧ (reSearch e.2 cl).isSome ∧ k2 ∈ stepKeys e := by
  intro l
  induction l with
  | nil => simp
  | cons e t ih =>
    intro params
    rw [List.foldl_cons, ih, mem_pkeys_step]
    simp only [List.mem_cons]
    constructor
    · rintro ((hp | hs) | ⟨e2, he2, hrest⟩)
      · exact Or.inl hp
      · exact Or.inr ⟨e, Or.inl rfl, hs⟩
      · exact Or.inr ⟨e2, Or.inr he2, hrest⟩
    · rintro (hp | ⟨e2, (rfl | he2), hrest⟩)
      · exact Or.inl (Or.inl hp)
      · exact Or.inl (Or.inr hrest)
      · exact Or.inr ⟨e2, he2, hrest⟩

theorem x_mem_generic_iff (cl : List Char) :
    "x" ∈ pkeys (PARAMETER_PATTERNS.foldl (step cl) []) ↔
      (reSearch coordinatesRE cl).isSome := by
  rw [mem_pkeys_fold]
  simp [PARAMETER_PATTERNS, stepKeys, pkeys]

theorem y_mem_generic_iff (cl : List Char) :
    "y" ∈ pkeys (PARAMETER_PATTERNS.foldl (step cl) []) ↔
      (reSearch coordinatesRE cl).isSome := by
  rw [mem_pkeys_fold]
  simp [PARAMETER_PATTERNS, stepKeys, pkeys]

theorem appname_mem_generic_iff (cl : List Char) :
    "application_name" ∈ pkeys (PARAMETER_PATTERNS.foldl (step cl) []) ↔
      (reSearch applicationNameRE cl).isSome := by
  rw [mem_pkeys_fold]
  simp [PARAMETER_PATTERNS, stepKeys, pkeys]

theorem application_not_mem_generic (cl : List Char) :
    "application" ∉ pkeys (PARAMETER_PATTERNS.foldl (step cl) []) := by
  rw [mem_pkeys_fold]
  simp [PARAMETER_PATTERNS, stepKeys, pkeys]

theorem mrun_app_mono (f : Nat) (s : List Char) (i : Nat) (caps : Caps) (k : MK)
    (h : (mrunF f appLooseRE s i caps k).isSome) :
    (mrunF f applicationNameRE s i caps k).isSome := by
  cases f with
  | zero => simp [mrunF] at h
  | succ f =>
    have e1 : mrunF (f + 1) appLooseRE s i caps k =
        mrunAux (mrunF f) (lit "open") s i caps
          (fun j c => mrunAux (mrunF f) appTailRE s j c k) := rfl
    have e2 : mrunF (f + 1) applicationNameRE s i caps k =
        (mrunAux (mrunF f) (lit "open") s i caps
          (fun j c => mrunAux (mrunF f) appTailRE s j c k)).orElse
          (fun _ => mrunAux (mrunF f) (RE.alt (lit "start") (lit "launch")) s i caps
            (fun j c => mrunAux (mrunF f) appTailRE s j c k)) := rfl
    rw [e1] at h
    rw [e2]
    rcases Option.isSome_iff_exists.mp h with ⟨v, hv⟩
    rw [hv]
    rfl

theorem searchFrom_app_mono (s : List Char) :
    ∀ (fuel i : Nat), (searchFrom appLooseRE s i fuel).isSome →
      (searchFrom applicationNameRE s i fuel).isSome := by
  intro fuel
  induction fuel with
  | zero => intro i h; simp [searchFrom] at h
  | succ f ih =>
    intro i h
    rw [searchFrom] at h ⊢
    cases hl : mrunF (s.length + 1) appLooseRE s i [] (fun j c => some (j, c)) with
    | some v =>
      have hn := mrun_app_mono (s.length + 1) s i [] (fun j c => some (j, c)) (by rw [hl]; rfl)
      rcases Option.isSome_iff_exists.mp hn with ⟨w, hw⟩
      rw [hw]
      rfl
    | none =>
      rw [hl] at h
      cases hn : mrunF (s.length + 1) applicationNameRE s i [] (fun j c => some (j, c)) with
      | some w => rfl
      | none => exact ih (i + 1) h

theorem reSearch_app_mono (s : List Char)
    (h : (reSearch appLooseRE s).isSome) : (reSearch applicationNameRE s).isSome :=
  searchFrom_app_mono s (s.length + 1) 0 h

theorem coord_none_no_xy (cmd i a : String)
    (h : reSearch coordinatesRE (pyLowerL cmd.toList) = none) :
    (extract_parameters cmd i a).lookup "x" = none ∧
      (extract_parameters cmd i a).lookup "y" = none := by
  have h2 : reSearch coordinatesRE (pyLowerL cmd.data) = none := h
  constructor <;>
  · rw [lookup_none_iff]
    simp only [extract_parameters]
    split_ifs <;> (try split) <;>
      simp [mem_pkeys_dinsert, x_mem_generic_iff, y_mem_generic_iff, h, h2]

theorem no_application (cmd i a : String) :
    (extract_parameters cmd i a).lookup "application" = none := by
  rw [lookup_none_iff]
  simp only [extract_parameters]
  split
  · split <;> simp [mem_pkeys_dinsert, application_not_mem_generic]
  · split
    · split
      · split <;> simp [mem_pkeys_dinsert, application_not_mem_generic]
      · exact application_not_mem_generic _
    · split
      · split
        · rename_i hguard
          split
          · rename_i m hmatch
            exfalso
            have hs : (reSearch applicationNameRE (pyLowerL cmd.toList)).isSome :=
              reSearch_app_mono _ (by rw [hmatch]; rfl)
            have hmem := (appname_mem_generic_iff (pyLowerL cmd.toList)).mpr hs
            rw [Option.isNone_iff_eq_none, lookup_none_iff] at hguard
            exact hguard hmem
          · exact application_not_mem_generic _
        · exact application_not_mem_generic _
      · exact application_not_mem_generic _

theorem noBraceB_iff (cl : List Char) : noBraceB cl = true ↔ noBracePair cl := by
  unfold noBraceB noBracePair
  simp [List.all_eq_true, List.mem_range]
  constructor
  · intro h j hj i hij hi hjj
    rcases h j hj i hij with h1 | h2
    · exact h1 hi
    · exact h2 hjj
  · intro h j hj i hij
    by_cases hi : cl[i]? = some (Char.ofNat 123)
    · exact Or.inr (h j hj i hij hi)
    · exact Or.inl hi

theorem starAnyFail (cl : List Char) (i : Nat) (k2 : MK)
    (hk : ∀ j c, i < j → k2 j c = none) :
    ∀ (f p : Nat) (caps : Caps), i < p →
      mrunF f (RE.star true anyC) cl p caps k2 = none := by
  intro f
  induction f with
  | zero => intro p caps hp; rfl
  | succ f ih =>
    intro p caps hp
    show mrunAux (mrunF f) (RE.star true anyC) cl p caps k2 = none
    simp only [mrunAux, anyC]
    cases hg : cl.get? p with
    | none => simp [hk p caps hp]
    | some c =>
      simp only [if_true]
      rw [if_pos (Nat.lt_succ_self p)]
      have ihp := ih (p + 1) caps (Nat.lt_succ_of_lt hp)
      simp only [anyC] at ihp
      rw [ihp]
      simp [hk p caps hp]

theorem rbraceFail (cl : List Char) (h : noBracePair cl) (f i : Nat)
    (hg : cl.get? i = some (Char.ofNat 123)) :
    ∀ (j : Nat) (c2 : Caps), i < j → rbCont cl f j c2 = none := by
  intro j c2 hij
  show mrunAux (mrunF f) (RE.cat (RE.cls (fun ch => ch == Char.ofNat 125)) RE.eps)
    cl j c2 (fun j2 c3 => some (j2, c3)) = none
  simp only [mrunAux]
  cases hj : cl.get? j with
  | none => rfl
  | some ch =>
    by_cases hc : ch = Char.ofNat 125
    · exfalso
      have hlen : j < cl.length := by
        rcases List.get?_eq_some.mp hj with ⟨hh, _⟩
        exact hh
      exact h j hlen i hij ⟨hg, hc ▸ hj⟩
    · simp [hc]

theorem jsonAtFail (cl : List Char) (h : noBracePair cl) :
    ∀ (f i : Nat) (caps : Caps),
      mrunF f jsonSpanRE cl i caps (fun j c => some (j, c)) = none := by
  intro f
  cases f with
  | zero => intro i caps; rfl
  | succ f =>
    intro i caps
    have e0 : mrunF (f + 1) jsonSpanRE cl i caps (fun j c => some (j, c)) =
        match cl.get? i with
        | some c =>
          if (c == Char.ofNat 123) = true then
            mrunF (f + 1) (RE.star true anyC) cl (i + 1) caps (rbCont cl f)
          else none
        | none => none := rfl
    rw [e0]
    cases hg : cl.get? i with
    | none => rfl
    | some c =>
      by_cases hc : c = Char.ofNat 123
      · show (if (c == Char.ofNat 123) = true then
            mrunF (f + 1) (RE.star true anyC) cl (i + 1) caps (rbCont cl f)
          else none) = none
        rw [if_pos (by rw [hc]; rfl)]
        exact starAnyFail cl i (rbCont cl f) (rbraceFail cl h f i (hc ▸ hg))
          (f + 1) (i + 1) caps (Nat.lt_succ_self i)
      · show (if (c == Char.ofNat 123) = true then
            mrunF (f + 1) (RE.star true anyC) cl (i + 1) caps (rbCont cl f)
          else none) = none
        rw [if_neg (fun hb => hc (by simpa using hb))]

theorem searchJson_none (cl : List Char) (h : noBracePair cl) :
    ∀ (fuel i : Nat), searchFrom jsonSpanRE cl i fuel = none := by
  intro fuel
  induction fuel with
  | zero => intro i; rfl
  | succ f ih =>
    intro i
    rw [searchFrom, jsonAtFail cl h _ i]
    exact ih (i + 1)

theorem reSearch_json_none (cl : List Char) (h : noBracePair cl) :
    reSearch jsonSpanRE cl = none :=
  searchJson_none cl h (cl.length + 1) 0

/-- C6: classify_intent lower-cases and trims its input, tests each
intent by substring search in table-definition order, and returns the
first intent any of whose patterns matches; an utterance matching both
file_creation and file_management patterns yields the earlier
file_creation, and an utterance matching no pattern yields none. -/
theorem classify_intent_table_order :
    (∀ cmd : String, classify_intent cmd =
      (INTENT_PATTERNS.find? (fun e => e.2.any
        (fun p => (reSearch p (pyStrip (pyLowerL cmd.toList))).isSome))).map Prod.fst)
    ∧ classify_intent "create file and list files" = some "file_creation"
    ∧ (((INTENT_PATTERNS.lookup "file_management").getD []).any
        (fun p => (reSearch p (pyStrip (pyLowerL "create file and list files".toList))).isSome))
        = true
    ∧ classify_intent "  MAKE a Doc  " = some "file_creation"
    ∧ classify_intent "hello" = none := by
  refine ⟨fun cmd => classifyAux_eq_find INTENT_PATTERNS _, rfl, rfl, rfl, rfl⟩

/-- C7: get_action returns default_action when the intent has no entry
in ACTION_MAPPING; otherwise it scans the intent table in definition
order, returning the action of the first pattern matching the
lower-cased utterance, or default_action when none matches. -/
theorem get_action_table_order :
    (∀ (intent cmd : String), get_action intent cmd =
      (ACTION_MAPPING.lookup intent).elim "default_action"
        (fun tbl => ((tbl.find? (fun e => (reSearch e.1 (pyLowerL cmd.toList)).isSome)).map
          Prod.snd).getD "default_action"))
    ∧ ACTION_MAPPING.lookup "windows_automation" = none
    ∧ get_action "windows_automation" "click at coordinates 500, 300" = "default_action"
    ∧ get_action "file_creation" "new json data" = "create_json"
    ∧ get_action "weather_inquiry" "hello" = "default_action" := by
  refine ⟨fun intent cmd => ?_, rfl, rfl, rfl, rfl⟩
  unfold get_action
  cases hl : ACTION_MAPPING.lookup intent with
  | none => rfl
  | some tbl => exact getActionAux_eq_find tbl _

/-- C9: classify_intent only ever returns a key of INTENT_PATTERNS or
none, never the string conversation, which has no pattern entry; hence
the orchestrator guard against a conversation intent never excludes a
classifier hit, and every non-none classification enters the rule-based
tier. -/
theorem classifier_never_conversation :
    (∀ (cmd i : String), classify_intent cmd = some i → i ∈ INTENT_PATTERNS.map Prod.fst)
    ∧ INTENT_PATTERNS.length = 10
    ∧ ((INTENT_PATTERNS.map Prod.fst).contains "conversation") = false
    ∧ (∀ cmd : String, classify_intent cmd ≠ some "conversation")
    ∧ (∀ (cmd : String) (ai : Option (Except String CommandAnalysis)) (ch : Nat) (i : String),
        classify_intent cmd = some i →
        analyze_command cmd ai ch =
          { intent := i, action := get_action i cmd,
            parameters := extract_parameters cmd i (get_action i cmd),
            response := none, confidence := ruleConf, requires_confirmation := false })
    ∧ Option.isSome (classify_intent "list files") = true := by
  have h1 : ∀ (cmd i : String), classify_intent cmd = some i → i ∈ INTENT_PATTERNS.map Prod.fst :=
    fun cmd i h => classifyAux_mem INTENT_PATTERNS _ i h
  have h3 : ∀ cmd : String, classify_intent cmd ≠ some "conversation" := by
    intro cmd hc
    have hmem := h1 cmd _ hc
    simp [INTENT_PATTERNS] at hmem
  refine ⟨h1, rfl, by decide, h3, ?_, rfl⟩
  intro cmd ai ch i hci
  exact rule_branch cmd ai ch i hci (fun he => h3 cmd (he ▸ hci))

/-- C5: whenever the classifier returns an intent other than
conversation or none, analyze_command packages that intent, the mapped
action and the extracted parameters with confidence 0.8, and neither the
generative adapter nor the static fallback influences the result (the
concrete instance passes a live adapter that is ignored). -/
theorem rule_tier_packaging :
    (∀ (cmd : String) (ai : Option (Except String CommandAnalysis)) (ch : Nat) (i : String),
      classify_intent cmd = some i → i ≠ "conversation" →
      analyze_command cmd ai ch =
        { intent := i, action := get_action i cmd,
          parameters := extract_parameters cmd i (get_action i cmd),
          response := none, confidence := ruleConf, requires_confirmation := false })
    ∧ ruleConf = 8/10
    ∧ classify_intent "list files" = some "file_management"
    ∧ analyze_command "list files" (some (Except.ok probeAnalysis)) 3 =
        { intent := "file_management", action := "list_files", parameters := [],
          response := none, confidence := ruleConf, requires_confirmation := false } := by
  exact ⟨rule_branch, rfl, rfl, rfl⟩

/-- C3: on an utterance whose trimmed form is empty, analyze_command
immediately returns a conversational analysis with the fixed greeting
response, for every adapter configuration and random draw, so neither
the classifier nor the generative adapter affects the result. -/
theorem empty_input_short_circuit :
    (∀ (cmd : String) (ai : Option (Except String CommandAnalysis)) (ch : Nat),
      pyStrip cmd.toList = [] →
      analyze_command cmd ai ch =
        { intent := "conversation", action := "chat", parameters := [],
          response := some "How can I help you?", confidence := 0,
          requires_confirmation := false })
    ∧ analyze_command "" none 0 =
        { intent := "conversation", action := "chat", parameters := [],
          response := some "How can I help you?", confidence := 0,
          requires_confirmation := false }
    ∧ analyze_command "   " (some (Except.ok probeAnalysis)) 7 =
        { intent := "conversation", action := "chat", parameters := [],
          response := some "How can I help you?", confidence := 0,
          requires_confirmation := false } := by
  refine ⟨fun cmd ai ch h => ?_, rfl, rfl⟩
  unfold analyze_command
  rw [if_pos h]

/-- C2 counterexample: the empty utterance is one on which the
classifier finds no match and no generative client is configured, yet
analyze_command returns the fixed greeting with confidence 0, not a
pool response with confidence 0.3 — the empty-input check fires first. -/
theorem empty_utterance_not_pool :
    classify_intent "" = none
    ∧ analyze_command "" none 0 =
        { intent := "conversation", action := "chat", parameters := [],
          response := some "How can I help you?", confidence := 0,
          requires_confirmation := false }
    ∧ (fallbackResponses.contains "How can I help you?") = false
    ∧ (0 : ℚ) ≠ 3/10 := by
  refine ⟨rfl, rfl, rfl, by norm_num⟩

/-- C2 amended: on every utterance whose trimmed form is non-empty, if
the classifier finds no match and the generative adapter raises or no
client is configured, analyze_command catches the failure and returns
intent conversation, action chat, empty parameters, confidence 0.3 and
a response drawn from the fixed pool of four fallback strings. -/
theorem fallback_tier_result :
    (∀ (cmd : String) (ai : Option (Except String CommandAnalysis)) (ch : Nat),
      pyStrip cmd.toList ≠ [] → classify_intent cmd = none →
      (ai = none ∨ ∃ e, ai = some (Except.error e)) →
      analyze_command cmd ai ch =
        { intent := "conversation", action := "chat", parameters := [],
          response := some (fallbackResponses.getD (ch % 4) ""),
          confidence := 3/10, requires_confirmation := false }
      ∧ fallbackResponses.getD (ch % 4) "" ∈ fallbackResponses)
    ∧ fallbackResponses.length = 4
    ∧ classify_intent "hello" = none
    ∧ analyze_command "hello" none 2 =
        { intent := "conversation", action := "chat", parameters := [],
          response := some "Could you be more specific about what you\x27d like me to do?",
          confidence := 3/10, requires_confirmation := false }
    ∧ analyze_command "hello" (some (Except.error "boom")) 0 =
        { intent := "conversation", action := "chat", parameters := [],
          response := some "I\x27m not sure how to help with that. Could you please rephrase your request?",
          confidence := 3/10, requires_confirmation := false } := by
  exact ⟨fun cmd ai ch h1 h2 h3 =>
    ⟨fallthrough_branch cmd ai ch h1 h2 h3, getD_mod_mem ch⟩, rfl, rfl, rfl, rfl⟩

/-- C1 counterexample: on the utterance of the claim the generic
content pattern already captures the topic, so extract_parameters for
intent file_creation stores no content_topic key at all — the claimed
content_topic mapping is absent. -/
theorem c1_no_content_topic :
    (extract_parameters c1cmd "file_creation" "create_word").lookup "content_topic" = none
    ∧ classify_intent c1cmd = some "file_creation"
    ∧ get_action "file_creation" c1cmd = "create_word" := by
  exact ⟨rfl, rfl, rfl⟩

/-- C1 amended: extract_parameters on the word-document utterance with
intent file_creation yields file_type docx and stores the stop-word-free
topic, artificial intelligence, under the keys content and topic; the
content_topic key is suppressed because a generic content capture is
present. -/
theorem c1_extraction :
    extract_parameters c1cmd "file_creation" "create_word" =
      [("topic", PVal.str "artificial intelligence"),
       ("content", PVal.str "artificial intelligence"),
       ("file_type", PVal.str "docx")]
    ∧ (extract_parameters c1cmd "file_creation" "create_word").lookup "file_type" =
        some (PVal.str "docx") := by
  exact ⟨rfl, rfl⟩

/-- C8: extract_parameters on the click utterance yields the integer
coordinates x 500 and y 300, and whenever the coordinate pattern does
not match the lower-cased utterance, the x and y keys are absent from
the result of extract_parameters, which never fails. -/
theorem coordinates_extraction :
    extract_parameters "click at coordinates 500, 300" "windows_automation" "default_action" =
      [("x", PVal.int 500), ("y", PVal.int 300)]
    ∧ (∀ (cmd i a : String), reSearch coordinatesRE (pyLowerL cmd.toList) = none →
        (extract_parameters cmd i a).lookup "x" = none ∧
        (extract_parameters cmd i a).lookup "y" = none)
    ∧ reSearch coordinatesRE (pyLowerL "hello".toList) = none
    ∧ (extract_parameters "hello" "conversation" "chat").lookup "x" = none := by
  exact ⟨rfl, coord_none_no_xy, rfl, rfl⟩

/-- C10 counterexample: no utterance can put an application key into
the extracted parameters while application_name is absent — the
open-application refinement pattern is subsumed by the generic
application_name pattern, so its guard never passes. -/
theorem application_key_impossible :
    (∃ (cmd i a : String), ((extract_parameters cmd i a).lookup "application").isSome
      ∧ (extract_parameters cmd i a).lookup "application_name" = none) ↔ False := by
  constructor
  · rintro ⟨cmd, i, a, hs, _⟩
    rw [no_application cmd i a] at hs
    simp at hs
  · exact False.elim

/-- C10 amended: the weather refinement stores its capture under the
key city when city_name is absent, as on the weather-of-rome utterance,
while the application refinement is unreachable: whenever its open
pattern matches, the generic pattern already stored application_name,
so no result of extract_parameters ever contains an application key. -/
theorem city_key_refinement :
    extract_parameters "weather of rome" "weather_inquiry" "get_weather" =
      [("city", PVal.str "rome")]
    ∧ reSearch cityNameRE (pyLowerL "weather of rome".toList) = none
    ∧ (∀ (cmd i a : String), (extract_parameters cmd i a).lookup "application" = none) := by
  exact ⟨rfl, rfl, no_application⟩

/-- C4: the generative reply parser either returns an analysis or
raises; it raises on every reply with no brace span, and on a reply
whose span parses to a JSON object missing the four fields it returns
the defaults, intent conversation, action chat, empty parameters, null
response, at the fixed confidence 0.9, strictly above the rule tier
confidence 0.8. -/
theorem ai_adapter_contract :
    (∀ (text : String) (loads : String → Option Json), noBracePair text.toList →
      ai_analyze_command text loads = Except.error "No valid JSON found in AI response")
    ∧ (∀ (text : String) (loads : String → Option Json) (m : Nat × Nat × Caps)
        (fields : List (String × Json)),
        reSearch jsonSpanRE text.toList = some m →
        loads (String.mk (sliceL text.toList m.1 m.2.1)) = some (Json.obj fields) →
        fields.lookup "intent" = none → fields.lookup "action" = none →
        fields.lookup "parameters" = none → fields.lookup "response" = none →
        ai_analyze_command text loads = Except.ok
          { intent := Json.str "conversation", action := Json.str "chat",
            parameters := Json.obj [], response := Json.null, confidence := 9/10 })
    ∧ (9 : ℚ)/10 > ruleConf
    ∧ noBracePair "no json here".toList
    ∧ ai_analyze_command "no json here" (fun _ => none) =
        Except.error "No valid JSON found in AI response"
    ∧ ai_analyze_command "ok \x7b\x7d tail"
        (fun s => if s = "\x7b\x7d" then some (Json.obj []) else none) =
        Except.ok
          { intent := Json.str "conversation", action := Json.str "chat",
            parameters := Json.obj [], response := Json.null, confidence := 9/10 } := by
  refine ⟨?_, ?_, by norm_num [ruleConf], (noBraceB_iff _).mp rfl, rfl, rfl⟩
  · intro text loads h
    unfold ai_analyze_command
    rw [reSearch_json_none text.toList h]
  · intro text loads m fields hs hl hi ha hp hr
    have hs2 : reSearch jsonSpanRE text.data = some m := hs
    have hl2 : loads { data := sliceL text.data m.1 m.2.1 } = some (Json.obj fields) := hl
    unfold ai_analyze_command
    simp [hs, hs2, hl, hl2, jget, hi, ha, hp, hr]
